import Mathlib

/-!
Shallow embedding of the QtBridge Python/QML bridge core (conversion layer,
mutation-bracket decorators, model adapter, registration entry points),
together with theorems settling the specification claims about it.

Machine integers are modelled as `Int` with explicit two-complement
truncation where the C++ code narrows (`static_cast<int>` of a `long`).
Python floats are never inspected arithmetically by the bridge: every path
copies the double payload unchanged, so a float is represented by its 64-bit
payload as an opaque `Nat`.
-/

namespace QtBridges

/-- Two-complement truncation of an arbitrary integer to a signed 32-bit
value, as performed by `static_cast<int>` on a wider integer in the source. -/
def wrap32 (n : Int) : Int := (n + 2 ^ 31) % 2 ^ 32 - 2 ^ 31

/-- Python runtime values, as discriminated by the CPython checks the source
uses (`PyUnicode_Check`, `PyBool_Check`, `PyLong_Check`, `PyFloat_Check`,
`PyList_Check`, `PyTuple_Check`, `PyDict_Check`, `Py_None` identity).
`PData` is an object carrying `__dataclass_fields__` (a dataclass instance);
`PObj` is any other object; both carry their `str()` rendering. -/
inductive PyVal where
  | PStr (s : String)
  | PInt (n : Int)
  | PFloat (payload : Nat)
  | PBool (b : Bool)
  | PNone
  | PList (xs : List PyVal)
  | PTuple (xs : List PyVal)
  | PDict (entries : List (String × PyVal))
  | PData (fields : List (String × PyVal)) (strRep : String)
  | PObj (strRep : String)

/-- `QVariant` values as the source constructs them: invalid (empty) variant,
string, 32-bit int, double, bool, variant list, string-keyed variant map, and
the `PySide::PyObjectWrapper` fallback that boxes a Python object. -/
inductive QVariant where
  | VInvalid
  | VString (s : String)
  | VInt (n : Int)
  | VDouble (payload : Nat)
  | VBool (b : Bool)
  | VList (xs : List QVariant)
  | VMap (entries : List (String × QVariant))
  | VPyWrapper (v : PyVal)

/-- `PyLong_Check` accepts exact ints and subclasses; CPython `bool` is a
subclass of `int`, so it is accepted as well. -/
def pyLongCheck : PyVal → Bool
  | .PInt _ => true
  | .PBool _ => true
  | _ => false

/-- Result of `PyLong_AsLong`: the C long value, or a raised Python error. -/
inductive AsLongResult where
  | ok (n : Int)
  | err
  deriving Repr, DecidableEq

/-- `PyLong_AsLong`: a Python int yields its value when it fits a 64-bit C
long and raises `OverflowError` otherwise; a bool yields 1 or 0; any other
value raises `TypeError` (none of the bridge call sites pass index-like
objects of other kinds). -/
def pyLong_AsLong : PyVal → AsLongResult
  | .PInt n => if -(2 ^ 63) ≤ n ∧ n < 2 ^ 63 then .ok n else .err
  | .PBool b => .ok (if b then 1 else 0)
  | _ => .err

/-- `PyLong_AsLong` as used at `autoqmlbridgemodel.cpp` data(): the result is
consumed without an error check, so a failed conversion contributes the raw
-1 sentinel the C API returns. -/
def pyLong_AsLongUnchecked (v : PyVal) : Int :=
  match pyLong_AsLong v with
  | .ok n => n
  | .err => -1

mutual

/-- `pyObject2VariantOpt` (conversion.cpp lines 50-103) on a non-null object.
`Py_None` produces the empty optional; the checks run in source order
(unicode, bool, long, float, list/tuple, dict, wrapper fallback).  An int
outside the C long range clears the error and falls through to the wrapper
fallback.  List/tuple and dict conversion delegates to the external
`PySide::Variant` converters; these are modelled from the spec marshaling
table: each element is converted by this same conversion, an empty result
standing in as an invalid variant. -/
def pyObject2VariantOpt : PyVal → Option QVariant
  | .PNone => none
  | .PStr s => some (.VString s)
  | .PBool b => some (.VBool b)
  | .PInt n =>
      if -(2 ^ 63) ≤ n ∧ n < 2 ^ 63 then some (.VInt (wrap32 n))
      else some (.VPyWrapper (.PInt n))
  | .PFloat p => some (.VDouble p)
  | .PList xs => some (.VList (convertToVariantList xs))
  | .PTuple xs => some (.VList (convertToVariantList xs))
  | .PDict es => some (.VMap (convertToVariantMap es))
  | .PData fs r => some (.VPyWrapper (.PData fs r))
  | .PObj r => some (.VPyWrapper (.PObj r))

/-- Modelled from the spec: `PySide::Variant::convertToVariantList` converts
a Python list or tuple element-wise into an ordered generic-value list. -/
def convertToVariantList : List PyVal → List QVariant
  | [] => []
  | x :: xs => ((pyObject2VariantOpt x).getD .VInvalid) :: convertToVariantList xs

/-- Modelled from the spec: `PySide::Variant::convertToVariantMap` converts a
Python dict into a string-keyed generic-value map. -/
def convertToVariantMap : List (String × PyVal) → List (String × QVariant)
  | [] => []
  | (k, v) :: es => (k, (pyObject2VariantOpt v).getD .VInvalid) :: convertToVariantMap es

end

mutual

/-- `variant2PyObject` (conversion.cpp lines 154-187): an invalid variant
yields `None`; list, map, string, int, double and bool payloads are rebuilt
as the corresponding Python values; the default branch hands a wrapped
Python object back through the Shiboken `QVariant` converter, which returns
the boxed object itself. -/
def variant2PyObject : QVariant → PyVal
  | .VInvalid => .PNone
  | .VList xs => .PList (variantList2PyObject xs)
  | .VMap es => .PDict (variantMap2PyObject es)
  | .VString s => .PStr s
  | .VInt n => .PInt n
  | .VDouble p => .PFloat p
  | .VBool b => .PBool b
  | .VPyWrapper v => v

/-- `variantList2PyObject` (conversion.cpp lines 105-121). -/
def variantList2PyObject : List QVariant → List PyVal
  | [] => []
  | x :: xs => variant2PyObject x :: variantList2PyObject xs

/-- `variantMap2PyObject` (conversion.cpp lines 123-152). -/
def variantMap2PyObject : List (String × QVariant) → List (String × PyVal)
  | [] => []
  | (k, v) :: es => (k, variant2PyObject v) :: variantMap2PyObject es

end

/-- `pyObject2VariantOpt` on a possibly-null `PyObject*`: a null pointer
yields the empty optional (conversion.cpp lines 52-53). -/
def pyObject2VariantOptPtr : Option PyVal → Option QVariant
  | none => none
  | some v => pyObject2VariantOpt v

/-- The registered `PyObject* -> QVariant` meta-type converter
(conversion.cpp lines 259-263): an empty conversion result becomes the
invalid `QVariant`. -/
def pyObjectToVariantConverter (obj : Option PyVal) : QVariant :=
  (pyObject2VariantOptPtr obj).getD .VInvalid

/-! ## Mutation-bracket decorators (updateqmldecorators/) -/

/-- The `__code__` object of a Python function: positional parameter names
(`co_varnames`, first `co_argcount` entries) and `co_argcount`. -/
structure PyFunc where
  varnames : List String
  argcount : Nat
  deriving Repr, DecidableEq

/-- The parameter scan of `extractArgumentByName` (decoratorhelpers.cpp lines
127-136): position of the first parameter (among the first `argcount`
variable names) whose name matches. -/
def findArgPos (varnames : List String) (argcount : Nat) (argName : String) : Option Nat :=
  (List.range argcount).find? (fun i => varnames[i]? = some argName)

/-- `extractArgumentByName` (decoratorhelpers.cpp lines 113-158).  `code` is
the wrapped function together with its `__code__` object (`none` when it has
no `__code__`, in which case the lookup yields nothing).  A parameter found
at position `p ≥ 1` is read from the positional tuple shifted by one (QML
calls do not pass `self`); failing that, the keyword dictionary is consulted
regardless of whether the name is a declared parameter. -/
def extractArgumentByName (code : Option PyFunc) (args : List PyVal)
    (kwds : List (String × PyVal)) (argName : String) : Option PyVal :=
  match code with
  | none => none
  | some f =>
    let fromPositional : Option PyVal :=
      match findArgPos f.varnames f.argcount argName with
      | some p => if 1 ≤ p then args[p - 1]? else none
      | none => none
    match fromPositional with
    | some v => some v
    | none => List.lookup argName kwds

/-- The structural-change primitives invoked on the model during one
decorator call, plus the invocation of the wrapped Python method, in
execution order. -/
inductive BracketEvent where
  | startInsert (first last : Int)
  | finishInsert
  | startRemove (first last : Int)
  | finishRemove
  | startMove (sourceFirst sourceLast destinationRow : Int)
  | finishMove
  | startReset
  | endReset
  | callWrapped
  deriving Repr, DecidableEq

/-- State a bracket decorator call runs against: whether `m_wrapped_func`
and `m_backend_instance` are set (`validateDecoratorState`), whether the
backend resolves to a model in `s_bridgeMap` or `s_typeModelMap`
(`getModelForDecorator`), whether `wrapped_func.__get__` succeeds
(`createBoundMethod`), the wrapped function code object, the value
`model->rowCount(QModelIndex())` returns at query time, and the wrapped
method call result (`none` = the method raised). -/
structure DecoratorEnv where
  hasWrappedFunc : Bool
  hasBackend : Bool
  modelFound : Bool
  bindOk : Bool
  code : Option PyFunc
  rowCount : Int
  callResult : Option PyVal

/-- Outcome of one decorator `tp_call`: the ordered trace of model
primitives and wrapped-method invocation, and the returned object (`none` =
returns `nullptr` with a Python error set). -/
structure DecoratorCall where
  events : List BracketEvent
  result : Option PyVal

/-- `validateDecoratorState` (decoratorhelpers.cpp lines 15-40). -/
def validateDecoratorState (env : DecoratorEnv) : Bool :=
  env.hasWrappedFunc && env.hasBackend

/-- `InsertDecoratorPrivate::tp_call` (insertdecorator.cpp lines 14-69):
validate state, resolve model, bind the method, then fetch the optional
`index` argument; absent means append at `rowCount`.  The bracket
`startInsert`/`finishInsert` encloses the wrapped call; `finishInsert` runs
even when the wrapped method raises. -/
def insert_tp_call (env : DecoratorEnv) (args : List PyVal)
    (kwds : List (String × PyVal)) : DecoratorCall :=
  if ¬ validateDecoratorState env then ⟨[], none⟩
  else if ¬ env.modelFound then ⟨[], none⟩
  else if ¬ env.bindOk then ⟨[], none⟩
  else
    match extractArgumentByName env.code args kwds ("index") with
    | some idxObj =>
      match pyLong_AsLong idxObj with
      | .err => ⟨[], none⟩
      | .ok idx =>
        ⟨[.startInsert (wrap32 idx) (wrap32 idx), .callWrapped, .finishInsert],
          env.callResult⟩
    | none =>
      ⟨[.startInsert (wrap32 env.rowCount) (wrap32 env.rowCount), .callWrapped,
          .finishInsert], env.callResult⟩

/-- `RemoveDecoratorPrivate::tp_call` (removedecorator.cpp lines 15-67):
validate state, resolve model, fetch the required `index` argument and
convert it, then `startRemove` before binding the method; a failed bind
still runs `finishRemove`, as does a raising wrapped method. -/
def remove_tp_call (env : DecoratorEnv) (args : List PyVal)
    (kwds : List (String × PyVal)) : DecoratorCall :=
  if ¬ validateDecoratorState env then ⟨[], none⟩
  else if ¬ env.modelFound then ⟨[], none⟩
  else
    match extractArgumentByName env.code args kwds ("index") with
    | none => ⟨[], none⟩
    | some idxObj =>
      match pyLong_AsLong idxObj with
      | .err => ⟨[], none⟩
      | .ok row =>
        if ¬ env.bindOk then
          ⟨[.startRemove (wrap32 row) (wrap32 row), .finishRemove], none⟩
        else
          ⟨[.startRemove (wrap32 row) (wrap32 row), .callWrapped, .finishRemove],
            env.callResult⟩

/-- `MoveDecoratorPrivate::tp_call` (movedecorator.cpp lines 17-81):
validate state, resolve model, fetch the required `from_index` and
`to_index` arguments and convert them.  The destination stored into the
`int` `adjustedToIndex` is incremented when `to > from` (comparison on the
untruncated `long` values).  `startMove` runs before binding; a failed bind
and a raising wrapped method both still run `finishMove`. -/
def move_tp_call (env : DecoratorEnv) (args : List PyVal)
    (kwds : List (String × PyVal)) : DecoratorCall :=
  if ¬ validateDecoratorState env then ⟨[], none⟩
  else if ¬ env.modelFound then ⟨[], none⟩
  else
    match extractArgumentByName env.code args kwds ("from_index"),
          extractArgumentByName env.code args kwds ("to_index") with
    | some fromObj, some toObj =>
      match pyLong_AsLong fromObj, pyLong_AsLong toObj with
      | .ok fromIndex, .ok toIndex =>
        let adjustedToIndex : Int :=
          if toIndex > fromIndex then wrap32 (wrap32 toIndex + 1) else wrap32 toIndex
        if ¬ env.bindOk then
          ⟨[.startMove (wrap32 fromIndex) (wrap32 fromIndex) adjustedToIndex,
              .finishMove], none⟩
        else
          ⟨[.startMove (wrap32 fromIndex) (wrap32 fromIndex) adjustedToIndex,
              .callWrapped, .finishMove], env.callResult⟩
      | _, _ => ⟨[], none⟩
    | _, _ => ⟨[], none⟩

/-- `ResetDecoratorPrivate::tp_call` (resetdecorator.cpp lines 15-57):
validate state, resolve model, bind the method, then bracket the wrapped
call with `startReset`/`endReset`; `endReset` runs even when the wrapped
method raises. -/
def reset_tp_call (env : DecoratorEnv) (args : List PyVal)
    (kwds : List (String × PyVal)) : DecoratorCall :=
  if ¬ validateDecoratorState env then ⟨[], none⟩
  else if ¬ env.modelFound then ⟨[], none⟩
  else if ¬ env.bindOk then ⟨[], none⟩
  else ⟨[.startReset, .callWrapped, .endReset], env.callResult⟩

/-! ## Model adapter (autoqmlbridgemodel.cpp) -/

/-- The adapter classification (`AutoQmlBridgeModel::DataType`).  `List` is
the primitive-list classification, `DataClassList` the record-list one,
`Table` is reserved and unimplemented. -/
inductive DataType where
  | Unknown
  | List
  | DataClassList
  | Table
  deriving Repr, DecidableEq

/-- `Qt::DisplayRole`. -/
def qtDisplayRole : Int := 0

/-- `Qt::EditRole`. -/
def qtEditRole : Int := 2

/-- `Qt::UserRole` (0x0100). -/
def qtUserRole : Int := 256

/-- Modelled from the spec: `PyObject_Str`, the host runtime `str()`
facility.  The bridge only forwards its result, so the exact container
formatting is irrelevant to every claim; objects carry their rendering. -/
def pyStr : PyVal → String
  | .PStr s => s
  | .PInt n => toString n
  | .PFloat p => toString p
  | .PBool b => if b then ("True") else ("False")
  | .PNone => "None"
  | .PList _ => "<list>"
  | .PTuple _ => "<tuple>"
  | .PDict _ => "<dict>"
  | .PData _ r => r
  | .PObj r => r

/-- `PyObject_GetAttrString` on a row record: reads a dataclass field
(`none` models the cleared `AttributeError`). -/
def pyGetAttr (v : PyVal) (name : String) : Option PyVal :=
  match v with
  | .PData fields _ => List.lookup name fields
  | _ => none

/-- `PyList_Check`. -/
def pyListCheck : PyVal → Bool
  | .PList _ => true
  | _ => false

/-- State one adapter call runs against: whether `m_backend` is set, the
classification, whether the object is a `BridgePyTypeObjectModel` (the
`dynamic_cast` in `rowCount`/`data` succeeds), the result of calling
`backend.data()` (`none` = the call raised), and the cached
`m_dataClassRoles` role map. -/
structure AdapterEnv where
  hasBackend : Bool
  datatype : DataType
  isTypeModel : Bool
  dataResult : Option PyVal
  dataClassRoles : List (Int × String)

/-- Outcome of `AutoQmlBridgeModel::rowCount`: the returned row count,
whether the once-per-call usage error for an `Unknown` type-mode object was
reported (`PyErr_SetString` + log + `PyErr_Clear`), and whether
`backend.data()` was invoked. -/
structure RowCountResult where
  rows : Int
  usageErrorReported : Bool
  dataCalled : Bool
  deriving Repr, DecidableEq

/-- `AutoQmlBridgeModel::rowCount` (autoqmlbridgemodel.cpp lines 68-124).
A valid (non-root) parent yields 0; a missing backend yields 0; an
`Unknown` classification on a type-mode object reports the usage error and
yields 0 (the Python error is cleared before returning, never crossing the
UI boundary); the `List` and `DataClassList` classifications call
`backend.data()` and return 0 on a raised exception or a non-list result and
the (int-truncated) length of a list result; every other classification
falls into the switch default and yields 0 without calling `data()`. -/
def rowCount (env : AdapterEnv) (parentIsValid : Bool) : RowCountResult :=
  if parentIsValid then ⟨0, false, false⟩
  else if ¬ env.hasBackend then ⟨0, false, false⟩
  else if env.datatype = .Unknown ∧ env.isTypeModel then ⟨0, true, false⟩
  else
    match env.datatype with
    | .List | .DataClassList =>
      match env.dataResult with
      | none => ⟨0, false, true⟩
      | some v =>
        match v with
        | .PList xs => ⟨wrap32 ((xs.length : Int)), false, true⟩
        | _ => ⟨0, false, true⟩
    | _ => ⟨0, false, false⟩

/-- Element conversion in `AutoQmlBridgeModel::data` for the `List`
classification (autoqmlbridgemodel.cpp lines 178-199), with the checks in
source order: unicode, then `PyLong_Check` (which accepts `bool`, making the
later `PyBool_Check` branch unreachable), then float, then the dead bool
branch, then `None`, then the `str()` fallback. -/
def convertListElement (item : PyVal) : QVariant :=
  if (match item with | .PStr _ => true | _ => false) then
    match item with | .PStr s => .VString s | _ => .VInvalid
  else if pyLongCheck item then .VInt (wrap32 (pyLong_AsLongUnchecked item))
  else if (match item with | .PFloat _ => true | _ => false) then
    match item with | .PFloat p => .VDouble p | _ => .VInvalid
  else if (match item with | .PBool _ => true | _ => false) then
    match item with | .PBool b => .VBool b | _ => .VInvalid
  else if (match item with | .PNone => true | _ => false) then .VInvalid
  else .VString (pyStr item)

/-- Field-value conversion in `AutoQmlBridgeModel::data` for the
`DataClassList` classification (autoqmlbridgemodel.cpp lines 248-269); the
same check order (and the same unreachable bool branch) as the primitive
case. -/
def convertFieldValue (fieldValue : PyVal) : QVariant :=
  convertListElement fieldValue

/-- `AutoQmlBridgeModel::data` (autoqmlbridgemodel.cpp lines 140-277).
Invalid index or missing backend yields the empty variant, as does an
`Unknown` classification on a type-mode object (error already logged in
`rowCount`).  `List`: only `Qt::DisplayRole` is served; the row list is
fetched and bounds-checked and the element converted by runtime type.
`DataClassList`: any role; the role is resolved to a field name through the
cached role map, an unknown role falling back to the whole-record `str()`
rendering for the display role; a failed field read yields the empty
variant. -/
def modelData (env : AdapterEnv) (indexIsValid : Bool) (row : Int) (role : Int) : QVariant :=
  if ¬ indexIsValid then .VInvalid
  else if ¬ env.hasBackend then .VInvalid
  else if env.datatype = .Unknown ∧ env.isTypeModel then .VInvalid
  else
    match env.datatype with
    | .List =>
      if role ≠ qtDisplayRole then .VInvalid
      else
        match env.dataResult with
        | none => .VInvalid
        | some v =>
          match v with
          | .PList xs =>
            if row < 0 ∨ row ≥ (xs.length : Int) then .VInvalid
            else
              match xs[row.toNat]? with
              | none => .VInvalid
              | some item => convertListElement item
          | _ => .VInvalid
    | .DataClassList =>
      match env.dataResult with
      | none => .VInvalid
      | some v =>
        match v with
        | .PList xs =>
          if row < 0 ∨ row ≥ (xs.length : Int) then .VInvalid
          else
            match xs[row.toNat]? with
            | none => .VInvalid
            | some item =>
              match List.lookup role env.dataClassRoles with
              | none =>
                if role = qtDisplayRole then .VString (pyStr item) else .VInvalid
              | some fieldName =>
                match pyGetAttr item fieldName with
                | none => .VInvalid
                | some fieldValue => convertFieldValue fieldValue
        | _ => .VInvalid
    | _ => .VInvalid

/-! ## Record-field role map (setupDataClassRoles / roleNames / endReset) -/

/-- Inputs to record-field discovery: the dataclass field names obtained
from the `data()` return-type hint (`some fields` when `__args__` exists and
its first element is a Python type, with `fields` the keys of that type
`__dataclass_fields__`, possibly empty; `none` when the hint or `__args__`
is unavailable), and the result of calling `backend.data()` (`none` = the
call raised). -/
structure DiscoveryCtx where
  hintElemFields : Option (List String)
  dataResult : Option PyVal

/-- `QtBridges::getDataClassFieldNames` on a first row item (helpers.cpp
lines 465-498): the keys of `__dataclass_fields__`, empty for a
non-dataclass. -/
def dataclassFieldsOf : PyVal → List String
  | .PData fields _ => fields.map Prod.fst
  | _ => []

/-- `AutoQmlBridgeModel::getDataClassFieldNames` (autoqmlbridgemodel.cpp
lines 956-1006): cached names win; only `DataClassList`/`Table` adapters
with a backend discover; a non-empty hint-derived field list wins, otherwise
the first element of the fetched row list is inspected (a raised `data()`,
a non-list or an empty list yields no names). -/
def getDataClassFieldNames (cached : List String) (datatype : DataType)
    (hasBackend : Bool) (ctx : DiscoveryCtx) : List String :=
  if ¬ cached.isEmpty then cached
  else if ¬ (datatype = .DataClassList ∨ datatype = .Table) ∨ ¬ hasBackend then []
  else
    match ctx.hintElemFields with
    | some fs =>
      if ¬ fs.isEmpty then fs
      else
        match ctx.dataResult with
        | some (.PList (x :: _)) => dataclassFieldsOf x
        | _ => []
    | none =>
      match ctx.dataResult with
      | some (.PList (x :: _)) => dataclassFieldsOf x
      | _ => []

/-- The role-map portion of the adapter state: the cached
`m_dataClassFieldNames` and `m_dataClassRoles`. -/
structure RoleState where
  dataClassFieldNames : List String
  dataClassRoles : List (Int × String)
  deriving Repr, DecidableEq

/-- `AutoQmlBridgeModel::setupDataClassRoles` (autoqmlbridgemodel.cpp lines
1008-1026): cache the discovered field names, clear the role map, then
allocate role ids from `Qt::UserRole + 1000` upward, one per field in
order. -/
def setupDataClassRoles (st : RoleState) (datatype : DataType)
    (hasBackend : Bool) (ctx : DiscoveryCtx) : RoleState :=
  let fieldNames := getDataClassFieldNames st.dataClassFieldNames datatype hasBackend ctx
  let baseRole := qtUserRole + 1000
  ⟨fieldNames, fieldNames.enum.map (fun p => (baseRole + (p.1 : Int), p.2))⟩

/-- The `AutoQmlBridgeModel` constructor (autoqmlbridgemodel.cpp lines
36-48): a `DataClassList` adapter derives its role map at construction;
other classifications start with an empty one. -/
def constructAdapterRoles (datatype : DataType) (hasBackend : Bool)
    (ctx : DiscoveryCtx) : RoleState :=
  if datatype = .DataClassList then setupDataClassRoles ⟨[], []⟩ datatype hasBackend ctx
  else ⟨[], []⟩

/-- `AutoQmlBridgeModel::roleNames` (autoqmlbridgemodel.cpp lines 321-344):
`List` serves exactly the display role; `DataClassList` serves the cached
role map when non-empty and falls back to the display role otherwise; every
other classification serves the display role. -/
def roleNames (datatype : DataType) (st : RoleState) : List (Int × String) :=
  match datatype with
  | .List => [(qtDisplayRole, "display")]
  | .DataClassList =>
    if ¬ st.dataClassRoles.isEmpty then st.dataClassRoles
    else [(qtDisplayRole, "display")]
  | _ => [(qtDisplayRole, "display")]

/-- `AutoQmlBridgeModel::endReset` (autoqmlbridgemodel.cpp lines 691-708),
role-map portion: when the adapter is `DataClassList` and the role map is
still empty, the cached field names are cleared and discovery re-runs;
otherwise the state is untouched. -/
def endResetRoles (datatype : DataType) (hasBackend : Bool) (st : RoleState)
    (ctx : DiscoveryCtx) : RoleState :=
  if datatype = .DataClassList ∧ st.dataClassRoles.isEmpty then
    setupDataClassRoles ⟨[], st.dataClassRoles⟩ datatype hasBackend ctx
  else st

/-! ## Registration (autoqmlbridge.cpp) -/

/-- An attribute found by the `PyObject_Dir` walk of
`registerMethodsFromType`, as the source discriminates it: a non-callable
value, a Python `property` descriptor, one of the bridge decorator objects
(callable; `wrappedFunc` is its `m_wrapped_func` code object, `none` when
the decorator holds no wrapped function), or an ordinary callable
(`retAnno` models the `return` entry of `__annotations__`: `none` = absent,
`some (isType, tpName)` = present, a Python type exactly when `isType`;
`code` is the `__code__` object found after unwrapping any `__wrapped__`
chain, `none` when absent).  A decorator object carries no
`__annotations__`, so its slot return type is always the `void` default. -/
inductive TypeAttr where
  | nonCallable (name : String)
  | prop (name : String)
  | decorator (name : String) (wrappedFunc : Option PyFunc)
  | plain (name : String) (retAnno : Option (Bool × String)) (code : Option PyFunc)

/-- The attribute name, for the skip checks. -/
def TypeAttr.name : TypeAttr → String
  | .nonCallable n => n
  | .prop n => n
  | .decorator n _ => n
  | .plain n _ _ => n

/-- The `methodName[0] == underscore` reserved-prefix check of
`registerMethodsFromType` (autoqmlbridge.cpp lines 262-263). -/
def firstCharIsUnderscore (name : String) : Bool :=
  match name.data with
  | [] => false
  | c :: _ => c == ('_')

/-- `getReturnTypeName` (autoqmlbridge.cpp lines 65-121): a `return`
annotation that is a Python type maps `list` to `QVariantList`, `dict` to
`QVariantMap` and anything else to `QVariant`; an absent annotation — or one
that is not a plain type object — falls to the `void` default. -/
def getReturnTypeName (retAnno : Option (Bool × String)) : String :=
  match retAnno with
  | some (true, n) =>
    if n = "list" then ("QVariantList")
    else if n = "dict" then ("QVariantMap")
    else ("QVariant")
  | some (false, _) => "void"
  | none => "void"

/-- A registered slot: method name, parameter count (`co_argcount` minus the
implicit receiver), return type name. -/
structure Slot where
  name : String
  paramCount : Nat
  returnType : String
  deriving Repr, DecidableEq

/-- Result of `registerMethodsFromType`: the slots added to the meta-object
builder, and the Python error state the (void-returning) walk leaves behind
(`some msg` = `PyErr_SetString` ran and the walk returned early). -/
structure RegisterMethodsResult where
  slots : List Slot
  pythonError : Option String
  deriving Repr, DecidableEq

/-- One step of the `registerMethodsFromType` walk (autoqmlbridge.cpp lines
250-353): non-callables and property descriptors are skipped, as are names
starting with an underscore and the reserved `data` method; a bracket
decorator whose `m_wrapped_func` is missing sets a Python error naming the
offending method and aborts the walk; a plain callable with no reachable
`__code__` likewise aborts; otherwise a slot is registered with all
parameters rendered as `QVariant`. -/
def registerMethodsWalk : List TypeAttr → List Slot → RegisterMethodsResult
  | [], acc => ⟨acc.reverse, none⟩
  | a :: rest, acc =>
    match a with
    | .nonCallable _ => registerMethodsWalk rest acc
    | .prop _ => registerMethodsWalk rest acc
    | .decorator methodName wrappedFunc =>
      if firstCharIsUnderscore methodName then registerMethodsWalk rest acc
      else if methodName = "data" then registerMethodsWalk rest acc
      else
        match wrappedFunc with
        | none =>
          ⟨acc.reverse,
            some ("Cannot introspect Python method " ++ methodName ++
              " (missing wrapped_func attribute in insert/remove/move/edit/reset decorator)")⟩
        | some code =>
          registerMethodsWalk rest
            (⟨methodName, code.argcount - 1, getReturnTypeName none⟩ :: acc)
    | .plain methodName retAnno code =>
      if firstCharIsUnderscore methodName then registerMethodsWalk rest acc
      else if methodName = "data" then registerMethodsWalk rest acc
      else
        match code with
        | none =>
          ⟨acc.reverse,
            some ("Cannot introspect Python method " ++ methodName ++
              " (missing __code__ attribute)")⟩
        | some c =>
          registerMethodsWalk rest
            (⟨methodName, c.argcount - 1, getReturnTypeName retAnno⟩ :: acc)

/-- `AutoQmlBridgePrivate::registerMethodsFromType` over the attribute walk
order of `PyObject_Dir`. -/
def registerMethodsFromType (attrs : List TypeAttr) : RegisterMethodsResult :=
  registerMethodsWalk attrs []

/-- The inputs `bridge_instance` inspects: whether the instance has a `data`
attribute, the classification `inferDataType` produces for it, and the
attribute list its type exposes. -/
structure InstanceInput where
  hasDataAttr : Bool
  inferredType : DataType
  attrs : List TypeAttr

/-- Observable outcome of one `bridge_instance` call: the returned object
(`some unit` = `Py_RETURN_NONE`, `none` = returns `nullptr`), the Python
error state at return, whether the model was registered as a QML singleton,
whether an entry was added to `s_bridgeMap`, and the slots registered. -/
structure BridgeInstanceOutcome where
  returnedNone : Bool
  pendingError : Option String
  qmlSingletonRegistered : Bool
  bridgeMapEntryAdded : Bool
  slots : List Slot
  deriving Repr, DecidableEq

/-- `AutoQmlBridgePrivate::bridge_instance` (autoqmlbridge.cpp lines
403-510), after successful argument parsing.  A missing `data()` method or
an `Unknown` inferred classification returns a `TypeError` before any
registration work.  Otherwise the `AutoQmlBridgePrivate` constructor runs
`registerMethodsFromType`; its error state is never checked, so the entry
point registers the QML singleton, stores the `s_bridgeMap` entry and
returns `None` even when the walk aborted with a Python error left set. -/
def bridge_instance (inp : InstanceInput) : BridgeInstanceOutcome :=
  if ¬ inp.hasDataAttr then
    ⟨false,
      some ("The class wrapped with bridge_instance must have a data() method that returns the data to be passed to QML"),
      false, false, []⟩
  else if inp.inferredType = .Unknown then
    ⟨false, some ("Could not infer data type from data() method."), false, false, []⟩
  else
    let reg := registerMethodsFromType inp.attrs
    ⟨true, reg.pythonError, true, true, reg.slots⟩

/-- The process-wide type registry written through `PyCapsule` attributes:
`getAutoQmlBridgePrivateForType` / `storeAutoQmlBridgePrivateForType` and
`storeDynamicMetaObjectForType` (pycapsule.cpp).  Python types and the
stored handles and meta-objects are identified by abstract tokens. -/
structure TypeRegState where
  bridges : List (Nat × Nat)
  metaObjects : List (Nat × Nat)
  qmlRegistrations : List Nat
  deriving Repr, DecidableEq

/-- Observable outcome of one `bridge_type` call. -/
structure BridgeTypeOutcome where
  state : TypeRegState
  returnedNone : Bool
  pendingError : Option String
  warnedDuplicate : Bool
  deriving Repr, DecidableEq

/-- `AutoQmlBridgePrivate::bridge_type` (autoqmlbridge.cpp lines 512-606),
after successful argument parsing.  `versionValid` is the outcome of the
external `QVersionNumber` major.minor parse.  A type already carrying a
stored bridge handle produces only a warning and returns `None` with the
registry untouched.  Otherwise a new handle is built, the handle and
meta-object are stored on the type, and the type is registered with the QML
engine (`qmlRegisterOk` the outcome of that external call). -/
def bridge_type (st : TypeRegState) (t : Nat) (versionValid : Bool)
    (newHandle : Nat) (newMeta : Nat) (qmlRegisterOk : Bool) : BridgeTypeOutcome :=
  if ¬ versionValid then
    ⟨st, false, some ("version must be in format major.minor"), false⟩
  else
    match List.lookup t st.bridges with
    | some _ => ⟨st, true, none, true⟩
    | none =>
      let st2 : TypeRegState :=
        ⟨(t, newHandle) :: st.bridges, (t, newMeta) :: st.metaObjects,
          t :: st.qmlRegistrations⟩
      if ¬ qmlRegisterOk then
        ⟨st2, false, some ("Failed to register type with QML engine"), false⟩
      else ⟨st2, true, none, false⟩

/-! ## qt_metacall return-value handling (autoqmlbridgemodel.cpp 632-646) -/

/-- Delivery of an invoked method result to the UI: not applicable (void or
empty declared return type, or no return slot), a delivered variant, or the
logged conversion-failure path that leaves the return slot untouched. -/
inductive ReturnDelivery where
  | notApplicable
  | delivered (v : QVariant)
  | conversionFailed

/-- The return-value block of `AutoQmlBridgeModel::qt_metacall`
(autoqmlbridgemodel.cpp lines 632-646): for a non-void, non-empty declared
return type with a return slot, the Python result is converted through
`pyObject2VariantOpt`; an empty conversion result is logged as a failure to
convert and delivers no value.  (In the delivered branch the variant may
additionally be replaced by a registered model reference; that replacement
does not affect which path is taken.) -/
def handleReturnValue (returnTypeName : String) (hasReturnSlot : Bool)
    (result : PyVal) : ReturnDelivery :=
  if returnTypeName ≠ "void" ∧ returnTypeName ≠ "" ∧ hasReturnSlot then
    match pyObject2VariantOpt result with
    | some v => .delivered v
    | none => .conversionFailed
  else .notApplicable

/-! ## Properties under verification -/

/-- Whether an event begins a structural change. -/
def isBegin : BracketEvent → Bool
  | .startInsert _ _ => true
  | .startRemove _ _ => true
  | .startMove _ _ _ => true
  | .startReset => true
  | _ => false

/-- Whether `e` is the end primitive matching the begin primitive `s`. -/
def matchingEnd : BracketEvent → BracketEvent → Bool
  | .startInsert _ _, .finishInsert => true
  | .startRemove _ _, .finishRemove => true
  | .startMove _ _ _, .finishMove => true
  | .startReset, .endReset => true
  | _, _ => false

/-- Every begin primitive in the trace is followed, later in the same trace
(hence before the decorator call returns), by its matching end primitive. -/
def beginsClosed (evs : List BracketEvent) : Prop :=
  ∀ i, (hi : i < evs.length) → isBegin evs[i] = true →
    ∃ j, ∃ (hj : j < evs.length), i < j ∧ matchingEnd evs[i] evs[j] = true

/-- The primitive values covered by the round-trip claim: strings, ints
representable in 32 bits, floats, bools, `None`. -/
def SupportedPrimitive : PyVal → Prop
  | .PStr _ => True
  | .PInt n => -(2 ^ 31) ≤ n ∧ n < 2 ^ 31
  | .PFloat _ => True
  | .PBool _ => True
  | .PNone => True
  | _ => False

/-- Claim C5 as stated: every `rowCount` call yields 0 on a valid parent;
reports the usage error and yields 0 for an `Unknown` classification on a
type-mode object; and in every other case calls `backend.data()`, yielding 0
on an exception or non-list result and the length of a list result. -/
def rowCountClaimProp : Prop :=
  ∀ (env : AdapterEnv) (parentIsValid : Bool),
    (parentIsValid = true → (rowCount env parentIsValid).rows = 0) ∧
    (parentIsValid = false → env.datatype = .Unknown → env.isTypeModel = true →
      (rowCount env parentIsValid).usageErrorReported = true ∧
      (rowCount env parentIsValid).rows = 0) ∧
    (parentIsValid = false → ¬ (env.datatype = .Unknown ∧ env.isTypeModel = true) →
      (rowCount env parentIsValid).dataCalled = true ∧
      (env.dataResult = none → (rowCount env parentIsValid).rows = 0) ∧
      (∀ v, env.dataResult = some v → pyListCheck v = false →
        (rowCount env parentIsValid).rows = 0) ∧
      (∀ xs, env.dataResult = some (.PList xs) →
        (rowCount env parentIsValid).rows = (xs.length : Int)))

/-- The field list of the record type backing a `DataClassList` adapter, as
visible through the adapter inputs: the hint-derived dataclass fields, or
the fields of the first row record. -/
def recordTypeFields (ctx : DiscoveryCtx) : Option (List String) :=
  match ctx.hintElemFields with
  | some fs => some fs
  | none =>
    match ctx.dataResult with
    | some (.PList (x :: _)) =>
      match x with
      | .PData fields _ => some (fields.map Prod.fst)
      | _ => none
    | _ => none

/-- Claim C6 as stated: for every `DataClassList` adapter whose record type
has field list `recordFields` (N fields), `roleNames()` equals the role ids
`Qt::UserRole + 1000 .. Qt::UserRole + 1000 + N - 1` mapped in order to the
field names; and a `List` (primitive) adapter serves exactly the display
role. -/
def roleStabilityClaimProp : Prop :=
  ∀ (ctx : DiscoveryCtx) (recordFields : List String),
    recordTypeFields ctx = some recordFields →
    (roleNames .DataClassList (constructAdapterRoles .DataClassList true ctx) =
      recordFields.enum.map (fun p => (qtUserRole + 1000 + (p.1 : Int), p.2))) ∧
    (∀ st : RoleState, roleNames .List st = [(qtDisplayRole, "display")])

/-! ## Helper lemmas -/

theorem wrap32_eq_self (n : Int) (h1 : -(2 ^ 31) ≤ n) (h2 : n < 2 ^ 31) :
    wrap32 n = n := by
  unfold wrap32
  omega

theorem matchingEnd_not_begin (s e : BracketEvent) (h : matchingEnd s e = true) :
    isBegin e = false := by
  cases s <;> cases e <;> simp_all [matchingEnd, isBegin]

theorem beginsClosed_nil : beginsClosed [] := by
  intro i hi
  simp at hi

theorem beginsClosed_pair (s e : BracketEvent) (h : matchingEnd s e = true) :
    beginsClosed [s, e] := by
  intro i hi hb
  match i, hi with
  | 0, _ => exact ⟨1, by simp, by omega, h⟩
  | 1, _ =>
    rw [show ([s, e])[1] = e from rfl, matchingEnd_not_begin s e h] at hb
    exact Bool.noConfusion hb

theorem beginsClosed_triple (s e : BracketEvent) (h : matchingEnd s e = true) :
    beginsClosed [s, .callWrapped, e] := by
  intro i hi hb
  match i, hi with
  | 0, _ => exact ⟨2, by simp, by omega, h⟩
  | 1, _ => exact Bool.noConfusion hb
  | 2, _ =>
    rw [show ([s, .callWrapped, e])[2] = e from rfl, matchingEnd_not_begin s e h] at hb
    exact Bool.noConfusion hb

theorem insert_events_wellBracketed (env : DecoratorEnv) (args : List PyVal)
    (kwds : List (String × PyVal)) :
    beginsClosed (insert_tp_call env args kwds).events := by
  unfold insert_tp_call
  repeat' split
  all_goals
    first
      | exact beginsClosed_nil
      | exact beginsClosed_pair _ _ rfl
      | exact beginsClosed_triple _ _ rfl

theorem remove_events_wellBracketed (env : DecoratorEnv) (args : List PyVal)
    (kwds : List (String × PyVal)) :
    beginsClosed (remove_tp_call env args kwds).events := by
  unfold remove_tp_call
  repeat' split
  all_goals
    first
      | exact beginsClosed_nil
      | exact beginsClosed_pair _ _ rfl
      | exact beginsClosed_triple _ _ rfl

theorem move_events_wellBracketed (env : DecoratorEnv) (args : List PyVal)
    (kwds : List (String × PyVal)) :
    beginsClosed (move_tp_call env args kwds).events := by
  unfold move_tp_call
  repeat' split
  all_goals
    first
      | exact beginsClosed_nil
      | exact beginsClosed_pair _ _ rfl
      | exact beginsClosed_triple _ _ rfl

theorem reset_events_wellBracketed (env : DecoratorEnv) (args : List PyVal)
    (kwds : List (String × PyVal)) :
    beginsClosed (reset_tp_call env args kwds).events := by
  unfold reset_tp_call
  repeat' split
  all_goals
    first
      | exact beginsClosed_nil
      | exact beginsClosed_pair _ _ rfl
      | exact beginsClosed_triple _ _ rfl

/-! ## Claim C4 -/

/-- C4: for every supported primitive value (a string, an int representable
in 32 bits, a float, a bool, or `None`), converting from the Python
representation to the generic value form and back through `variant2PyObject`
yields the value again.  The composition goes through the registered
converter (conversion.cpp lines 259-263), which lifts the empty optional
that `pyObject2VariantOpt` produces for `None` to the invalid `QVariant`;
`variant2PyObject` maps that back to `None`. -/
theorem primitive_conversion_roundtrip (v : PyVal) (h : SupportedPrimitive v) :
    variant2PyObject (pyObjectToVariantConverter (some v)) = v := by
  cases v with
  | PStr s => rfl
  | PBool b => rfl
  | PFloat p => rfl
  | PNone => rfl
  | PInt n =>
    obtain ⟨h1, h2⟩ := h
    have hrange : -(2 ^ 63) ≤ n ∧ n < 2 ^ 63 := by omega
    simp only [pyObjectToVariantConverter, pyObject2VariantOptPtr, pyObject2VariantOpt,
      if_pos hrange, Option.getD_some, variant2PyObject]
    rw [wrap32_eq_self n h1 h2]
  | PList xs => exact h.elim
  | PTuple xs => exact h.elim
  | PDict es => exact h.elim
  | PData fs r => exact h.elim
  | PObj r => exact h.elim

/-- Witness for C4 at concrete inputs. -/
theorem primitive_conversion_roundtrip_witness :
    variant2PyObject (pyObjectToVariantConverter (some (.PInt 42))) = .PInt 42 ∧
    variant2PyObject (pyObjectToVariantConverter (some (.PStr ("qt")))) = .PStr ("qt") ∧
    variant2PyObject (pyObjectToVariantConverter (some (.PBool true))) = .PBool true ∧
    variant2PyObject (pyObjectToVariantConverter (some .PNone)) = .PNone :=
  ⟨primitive_conversion_roundtrip (.PInt 42) ⟨by decide, by decide⟩,
   primitive_conversion_roundtrip (.PStr ("qt")) trivial,
   primitive_conversion_roundtrip (.PBool true) trivial,
   primitive_conversion_roundtrip .PNone trivial⟩

/-! ## Claim C10 -/

/-- C10: the Python-to-generic conversion maps `None` to the empty (no
value) result, the same outcome as a null pointer; consequently, for a
UI-triggered invocation whose declared return type is not void, a method
returning `None` takes the same conversion-failure path (logged failure, no
value delivered) as a method whose result cannot be converted. -/
theorem none_return_takes_conversion_failure_path (returnTypeName : String) (v : PyVal)
    (hrt1 : returnTypeName ≠ "void") (hrt2 : returnTypeName ≠ "")
    (hv : pyObject2VariantOpt v = none) :
    pyObject2VariantOptPtr (some .PNone) = pyObject2VariantOptPtr none ∧
    pyObject2VariantOptPtr (some .PNone) = none ∧
    handleReturnValue returnTypeName true .PNone = .conversionFailed ∧
    handleReturnValue returnTypeName true v =
      handleReturnValue returnTypeName true .PNone := by
  refine ⟨rfl, rfl, ?_, ?_⟩
  · simp [handleReturnValue, hrt1, hrt2, pyObject2VariantOpt]
  · simp [handleReturnValue, hrt1, hrt2, hv, pyObject2VariantOpt]

/-- Witness for C10 at a concrete return type and value. -/
theorem none_return_takes_conversion_failure_path_witness :
    handleReturnValue ("QVariant") true .PNone = .conversionFailed :=
  (none_return_takes_conversion_failure_path ("QVariant") .PNone
    (by decide) (by decide) rfl).2.2.1

/-! ## Claim C9 -/

/-- C9: a second `bridge_type` call on an already-registered Python type
returns success (`None`, no Python error) while performing no registration
work: only a warning is emitted, the registry is unchanged, and the stored
handle for the type is the one stored before. -/
theorem bridge_type_duplicate_registration_noop (st : TypeRegState)
    (t storedHandle newHandle newMeta : Nat) (qmlRegisterOk : Bool)
    (hdup : List.lookup t st.bridges = some storedHandle) :
    bridge_type st t true newHandle newMeta qmlRegisterOk = ⟨st, true, none, true⟩ ∧
    List.lookup t (bridge_type st t true newHandle newMeta qmlRegisterOk).state.bridges =
      some storedHandle := by
  unfold bridge_type
  simp [hdup]

/-- Witness for C9 at a concrete registry. -/
theorem bridge_type_duplicate_registration_noop_witness :
    bridge_type ⟨[(7, 3)], [(7, 4)], [7]⟩ 7 true 9 10 true =
      ⟨⟨[(7, 3)], [(7, 4)], [7]⟩, true, none, true⟩ :=
  (bridge_type_duplicate_registration_noop ⟨[(7, 3)], [(7, 4)], [7]⟩ 7 3 9 10 true rfl).1

/-! ## Claim C1 -/

/-- C1: for every call of a bracket decorator on a bound instance, every
invoked begin-structural-change primitive is followed by its matching end
primitive before the call returns (even when the wrapped method raises, or
cannot be bound — `callResult = none` and `bindOk = false` are covered by
the universal quantification); and when the model cannot be resolved from
either registry, the call returns an error (`result = none`) with an empty
trace — no begin primitive invoked and the wrapped method not called. -/
theorem bracket_decorators_always_close (env : DecoratorEnv) (args : List PyVal)
    (kwds : List (String × PyVal)) :
    (beginsClosed (insert_tp_call env args kwds).events ∧
     beginsClosed (remove_tp_call env args kwds).events ∧
     beginsClosed (move_tp_call env args kwds).events ∧
     beginsClosed (reset_tp_call env args kwds).events) ∧
    (env.hasWrappedFunc = true → env.hasBackend = true → env.modelFound = false →
      insert_tp_call env args kwds = ⟨[], none⟩ ∧
      remove_tp_call env args kwds = ⟨[], none⟩ ∧
      move_tp_call env args kwds = ⟨[], none⟩ ∧
      reset_tp_call env args kwds = ⟨[], none⟩) := by
  refine ⟨⟨insert_events_wellBracketed env args kwds,
    remove_events_wellBracketed env args kwds,
    move_events_wellBracketed env args kwds,
    reset_events_wellBracketed env args kwds⟩, ?_⟩
  intro hw hb hm
  refine ⟨?_, ?_, ?_, ?_⟩ <;>
    simp [insert_tp_call, remove_tp_call, move_tp_call, reset_tp_call,
      validateDecoratorState, hw, hb, hm]

/-- Witness for C1: a bound decorator whose backend is in neither registry
returns an error with an empty trace. -/
theorem bracket_decorators_always_close_witness :
    insert_tp_call ⟨true, true, false, true, none, 0, none⟩ [] [] = ⟨[], none⟩ ∧
    reset_tp_call ⟨true, true, false, true, none, 0, none⟩ [] [] = ⟨[], none⟩ := by
  have h := bracket_decorators_always_close ⟨true, true, false, true, none, 0, none⟩ [] []
  exact ⟨(h.2 rfl rfl rfl).1, (h.2 rfl rfl rfl).2.2.2⟩

/-! ## Claim C2 -/

/-- C2: a move-decorated call with integer `from_index` and `to_index`
brackets the structural move with source range `[from_index, from_index]`
and destination `to_index + 1` when `to_index > from_index`, `to_index`
unchanged otherwise: the trace begins with that `startMove` and ends with
`finishMove`. -/
theorem move_destination_index_adjustment (env : DecoratorEnv) (args : List PyVal)
    (kwds : List (String × PyVal)) (fromIndex toIndex : Int)
    (hw : env.hasWrappedFunc = true) (hb : env.hasBackend = true)
    (hm : env.modelFound = true)
    (hfrom : extractArgumentByName env.code args kwds ("from_index") =
      some (.PInt fromIndex))
    (hto : extractArgumentByName env.code args kwds ("to_index") =
      some (.PInt toIndex))
    (hf1 : -(2 ^ 31) ≤ fromIndex) (hf2 : fromIndex < 2 ^ 31)
    (ht1 : -(2 ^ 31) ≤ toIndex) (ht2 : toIndex < 2 ^ 31 - 1) :
    (move_tp_call env args kwds).events.head? =
      some (.startMove fromIndex fromIndex
        (if toIndex > fromIndex then toIndex + 1 else toIndex)) ∧
    (move_tp_call env args kwds).events.getLast? = some .finishMove := by
  have hfrange : -(2 ^ 63) ≤ fromIndex ∧ fromIndex < 2 ^ 63 := by omega
  have htrange : -(2 ^ 63) ≤ toIndex ∧ toIndex < 2 ^ 63 := by omega
  have hadj : (if toIndex > fromIndex then wrap32 (wrap32 toIndex + 1)
      else wrap32 toIndex) = (if toIndex > fromIndex then toIndex + 1 else toIndex) := by
    by_cases hgt : toIndex > fromIndex
    · rw [if_pos hgt, if_pos hgt, wrap32_eq_self toIndex ht1 (by omega),
        wrap32_eq_self (toIndex + 1) (by omega) (by omega)]
    · rw [if_neg hgt, if_neg hgt, wrap32_eq_self toIndex ht1 (by omega)]
  unfold move_tp_call
  rw [hfrom, hto]
  simp only [validateDecoratorState, hw, hb, hm, Bool.and_self, Bool.not_true,
    Bool.false_eq_true, not_true_eq_false, if_false, ite_false, pyLong_AsLong,
    if_pos hfrange, if_pos htrange]
  rw [wrap32_eq_self fromIndex hf1 hf2, hadj]
  by_cases hbind : env.bindOk = true
  · simp [hbind, List.getLast?]
  · simp [hbind, List.getLast?]

/-- Witness for C2: `move(from_index = 2, to_index = 5)` brackets with
destination 6; `move(from_index = 5, to_index = 2)` brackets with
destination 2. -/
theorem move_destination_index_adjustment_witness :
    (move_tp_call
        ⟨true, true, true, true, some ⟨["self", "from_index", "to_index"], 3⟩, 0,
          some .PNone⟩ [.PInt 2, .PInt 5] []).events.head? =
      some (.startMove 2 2 6) ∧
    (move_tp_call
        ⟨true, true, true, true, some ⟨["self", "from_index", "to_index"], 3⟩, 0,
          some .PNone⟩ [.PInt 5, .PInt 2] []).events.head? =
      some (.startMove 5 5 2) := by
  constructor
  · have h := move_destination_index_adjustment
      ⟨true, true, true, true, some ⟨["self", "from_index", "to_index"], 3⟩, 0,
        some .PNone⟩ [.PInt 2, .PInt 5] [] 2 5 rfl rfl rfl rfl rfl
      (by decide) (by decide) (by decide) (by decide)
    simpa using h.1
  · have h := move_destination_index_adjustment
      ⟨true, true, true, true, some ⟨["self", "from_index", "to_index"], 3⟩, 0,
        some .PNone⟩ [.PInt 5, .PInt 2] [] 5 2 rfl rfl rfl rfl rfl
      (by decide) (by decide) (by decide) (by decide)
    simpa using h.1

/-! ## Claim C3 -/

/-- C3: an insert-decorated call with no `index` argument (positional or
keyword) brackets with `startInsert(n, n)` where `n` is the row count
queried before the wrapped method is invoked (the trace shows
`startInsert` before `callWrapped`); when an `index` argument is supplied
and converts to an integer `i`, the bracket is `startInsert(i, i)`. -/
theorem insert_index_defaults_to_append (env : DecoratorEnv) (args : List PyVal)
    (kwds : List (String × PyVal))
    (hw : env.hasWrappedFunc = true) (hb : env.hasBackend = true)
    (hm : env.modelFound = true) (hbind : env.bindOk = true)
    (hrc1 : -(2 ^ 31) ≤ env.rowCount) (hrc2 : env.rowCount < 2 ^ 31) :
    (extractArgumentByName env.code args kwds ("index") = none →
      insert_tp_call env args kwds =
        ⟨[.startInsert env.rowCount env.rowCount, .callWrapped, .finishInsert],
          env.callResult⟩) ∧
    (∀ idxObj i, extractArgumentByName env.code args kwds ("index") = some idxObj →
      pyLong_AsLong idxObj = .ok i → -(2 ^ 31) ≤ i → i < 2 ^ 31 →
      insert_tp_call env args kwds =
        ⟨[.startInsert i i, .callWrapped, .finishInsert], env.callResult⟩) := by
  constructor
  · intro hnone
    unfold insert_tp_call
    rw [hnone]
    simp [validateDecoratorState, hw, hb, hm, hbind,
      wrap32_eq_self env.rowCount hrc1 hrc2]
  · intro idxObj i hsome hok hi1 hi2
    unfold insert_tp_call
    simp [validateDecoratorState, hw, hb, hm, hbind, hsome, hok,
      wrap32_eq_self i hi1 hi2]

/-- Witness for C3: a decorated method with no `index` parameter called with
no arguments appends at the pre-call row count (5); one with an `index`
parameter called with index 3 brackets at 3. -/
theorem insert_index_defaults_to_append_witness :
    insert_tp_call ⟨true, true, true, true, some ⟨["self"], 1⟩, 5, some .PNone⟩ [] [] =
      ⟨[.startInsert 5 5, .callWrapped, .finishInsert], some .PNone⟩ ∧
    insert_tp_call
        ⟨true, true, true, true, some ⟨["self", "index"], 2⟩, 5, some .PNone⟩
        [.PInt 3] [] =
      ⟨[.startInsert 3 3, .callWrapped, .finishInsert], some .PNone⟩ := by
  constructor
  · exact (insert_index_defaults_to_append
      ⟨true, true, true, true, some ⟨["self"], 1⟩, 5, some .PNone⟩ [] []
      rfl rfl rfl rfl (by decide) (by decide)).1 rfl
  · exact (insert_index_defaults_to_append
      ⟨true, true, true, true, some ⟨["self", "index"], 2⟩, 5, some .PNone⟩
      [.PInt 3] [] rfl rfl rfl rfl (by decide) (by decide)).2
      (.PInt 3) 3 rfl rfl (by decide) (by decide)

/-! ## Claim C5 -/

/-- C5 counterexample: a reachable `Table`-classified adapter (the backend
`data()` returns a DataFrame, which `inferDataType` classifies as `Table`
and `bridge_instance` accepts) falls into the switch default of `rowCount`:
it yields 0 without calling `backend.data()`, refuting the claim that in
every non-parent, non-Unknown-type-mode case the `data()` method is called
and a list result yields its length. -/
theorem rowCount_claim_counterexample : ¬ rowCountClaimProp := by
  intro h
  have h3 := (h ⟨true, .Table, false, some (.PList [.PStr ("a")]), []⟩ false).2.2 rfl
    (by rintro ⟨hc, -⟩; exact absurd hc (by decide))
  exact absurd h3.1 (by decide)

/-- C5 amended: every `rowCount` call yields 0 on a valid parent; yields 0
without report or `data()` call when the backend is missing; reports the
usage error once per call and yields 0 for an `Unknown` classification on a
type-mode object with a live backend; for the `PrimitiveList` and
`RecordList` classifications calls `backend.data()`, yielding 0 on a raised
exception (caught and logged, no exception crossing the UI boundary — the
call returns a plain count) or a non-list result, and the (int-truncated)
length of a list result; the reserved `Table` classification and an
`Unknown` classification on a non-type-mode adapter yield 0 without calling
`data()`. -/
theorem rowCount_amended (env : AdapterEnv) (parentIsValid : Bool) :
    (parentIsValid = true → rowCount env parentIsValid = ⟨0, false, false⟩) ∧
    (env.hasBackend = false → rowCount env false = ⟨0, false, false⟩) ∧
    (env.hasBackend = true → env.datatype = .Unknown → env.isTypeModel = true →
      rowCount env false = ⟨0, true, false⟩) ∧
    ((env.datatype = .List ∨ env.datatype = .DataClassList) → env.hasBackend = true →
      (rowCount env false).dataCalled = true ∧
      (env.dataResult = none → (rowCount env false).rows = 0) ∧
      (∀ v, env.dataResult = some v → pyListCheck v = false →
        (rowCount env false).rows = 0) ∧
      (∀ xs, env.dataResult = some (.PList xs) →
        (rowCount env false).rows = wrap32 ((xs.length : Int))) ∧
      (∀ xs, env.dataResult = some (.PList xs) → (xs.length : Int) < 2 ^ 31 →
        (rowCount env false).rows = (xs.length : Int))) ∧
    (env.hasBackend = true →
      (env.datatype = .Table ∨ (env.datatype = .Unknown ∧ env.isTypeModel = false)) →
      rowCount env false = ⟨0, false, false⟩) := by
  obtain ⟨hasB, dt, itm, dr, roles⟩ := env
  refine ⟨?_, ?_, ?_, ?_, ?_⟩
  · intro hp
    subst hp
    rfl
  · intro hhb
    subst hhb
    rfl
  · intro hhb hdt hitm
    subst hhb
    subst hdt
    subst hitm
    rfl
  · intro hdt hhb
    subst hhb
    have hdt2 : dt = DataType.List ∨ dt = DataType.DataClassList := hdt
    clear hdt
    rcases hdt2 with h | h <;> subst h <;> refine ⟨?_, ?_, ?_, ?_, ?_⟩ <;>
      first
        | (cases dr with
            | none => rfl
            | some v => cases v <;> rfl)
        | (intro hnone
           subst hnone
           rfl)
        | (intro v hsome hnl
           subst hsome
           cases v
           case PList xs =>
             rw [show pyListCheck (PyVal.PList xs) = true from rfl] at hnl
             exact Bool.noConfusion hnl
           all_goals rfl)
        | (intro xs hsome
           subst hsome
           rfl)
        | (intro xs hsome hlen
           subst hsome
           show wrap32 ((xs.length : Int)) = (xs.length : Int)
           exact wrap32_eq_self _ (by omega) hlen)
  · intro hhb hcase
    subst hhb
    rcases hcase with h | ⟨h1, h2⟩
    · subst h
      cases itm <;> rfl
    · subst h1
      subst h2
      rfl

/-- Witness for C5 (amended) at a concrete `PrimitiveList` adapter with two
rows. -/
theorem rowCount_amended_witness :
    (rowCount ⟨true, .List, false, some (.PList [.PStr ("a"), .PStr ("b")]), []⟩ false).rows
      = 2 ∧
    (rowCount ⟨true, .List, false,
      some (.PList [.PStr ("a"), .PStr ("b")]), []⟩ false).dataCalled = true := by
  have h := (rowCount_amended
    ⟨true, .List, false, some (.PList [.PStr ("a"), .PStr ("b")]), []⟩ false).2.2.2.1
    (Or.inl rfl) rfl
  exact ⟨h.2.2.2.2 [.PStr ("a"), .PStr ("b")] rfl (by decide), h.1⟩

/-! ## Claim C6 -/

/-- C6 counterexample: a `DataClassList` adapter over an empty dataclass
(zero fields — the source itself notes "There can ofcourse be an empty
dataclass") discovers no field names; `roleNames()` then serves the display
fallback `{0 -> display}` instead of the empty role set the claim assigns to
a record type with N = 0 fields. -/
theorem roleNames_claim_counterexample : ¬ roleStabilityClaimProp := by
  intro h
  have h1 := (h ⟨some [], some (.PList [.PData [] "EmptyDC()"])⟩ [] rfl).1
  exact absurd h1 (by decide)

/-- C6 amended: once field discovery succeeds with the record type's N ≥ 1
field names, the role map equals `{Qt::UserRole + 1000 .. + N - 1}` mapped
in order to the field names, and `roleNames()` serves exactly that map; the
map is mutated only by `endReset`, which is a no-op whenever the map is
already populated (so the mapping is stable across the adapter lifetime) and
re-derives it only when it was previously empty; when discovery yields no
fields, `roleNames()` falls back to `{DisplayRole -> display}`; a
`PrimitiveList` adapter serves exactly `{DisplayRole -> display}`. -/
theorem roleNames_amended (ctx : DiscoveryCtx) (fs : List String)
    (hdisc : getDataClassFieldNames [] .DataClassList true ctx = fs) (hne : fs ≠ []) :
    (roleNames .DataClassList (constructAdapterRoles .DataClassList true ctx) =
      fs.enum.map (fun p => (qtUserRole + 1000 + (p.1 : Int), p.2))) ∧
    (∀ (st : RoleState) (ctx2 : DiscoveryCtx), st.dataClassRoles ≠ [] →
      endResetRoles .DataClassList true st ctx2 = st) ∧
    (∀ (st : RoleState) (ctx2 : DiscoveryCtx), st.dataClassRoles = [] →
      endResetRoles .DataClassList true st ctx2 =
        setupDataClassRoles ⟨[], st.dataClassRoles⟩ .DataClassList true ctx2) ∧
    (∀ st : RoleState, st.dataClassRoles = [] →
      roleNames .DataClassList st = [(qtDisplayRole, "display")]) ∧
    (∀ st : RoleState, roleNames .List st = [(qtDisplayRole, "display")]) := by
  refine ⟨?_, ?_, ?_, ?_, ?_⟩
  · have hmapne :
        (fs.enum.map (fun p => (qtUserRole + 1000 + (p.1 : Int), p.2))).isEmpty
          = false := by
      cases fs with
      | nil => exact absurd rfl hne
      | cons a l => rfl
    simp only [constructAdapterRoles, if_pos rfl, setupDataClassRoles, hdisc,
      roleNames, hmapne]
    simp
    intro hfs
    exact absurd hfs hne
  · intro st ctx2 hpop
    unfold endResetRoles
    rw [if_neg]
    rintro ⟨-, hempty⟩
    exact hpop (List.isEmpty_iff.mp hempty)
  · intro st ctx2 hempty
    unfold endResetRoles
    rw [if_pos ⟨rfl, List.isEmpty_iff.mpr hempty⟩]
  · intro st hempty
    unfold roleNames
    rw [hempty]
    rfl
  · intro st
    rfl

/-- Witness for C6 (amended) at a two-field record type. -/
theorem roleNames_amended_witness :
    roleNames .DataClassList
      (constructAdapterRoles .DataClassList true ⟨some ["name", "age"], none⟩) =
      [(1256, "name"), (1257, "age")] := by
  have h := (roleNames_amended ⟨some ["name", "age"], none⟩ ["name", "age"] rfl
    (by decide)).1
  rw [h]
  decide

/-! ## Claim C7 -/

/-- C7 evaluated at the failing input: a `PrimitiveList` adapter whose row
list is `[True]` serves the display role for row 0 as the integer variant 1,
not as a boolean — `PyLong_Check` accepts `bool` (a CPython `int` subclass)
before the `PyBool_Check` branch is reached, so the bool branch of the
element conversion is unreachable, contradicting the claim that a bool
element is returned as a boolean (and the marshaling table of the spec,
which `pyObject2VariantOpt` follows by testing bool before int). -/
theorem primitiveList_bool_element_served_as_int :
    modelData ⟨true, .List, false, some (.PList [.PBool true]), []⟩ true 0 qtDisplayRole
      = .VInt 1 ∧
    modelData ⟨true, .List, false, some (.PList [.PBool true]), []⟩ true 0 qtDisplayRole
      ≠ .VBool true := by
  constructor
  · rfl
  · intro hcontra
    have h1 : QVariant.VInt 1 = QVariant.VBool true := hcontra
    exact QVariant.noConfusion h1

/-! ## Claim C8 -/

/-- C8 evaluated at the failing input: registering an instance (valid
`data()`, `List` classification) whose type carries a bracket decorator with
no wrapped function.  The walk sets a descriptive Python error naming the
method and registers no slot for it — but `bridge_instance` never checks the
error state the void-returning walk leaves behind: it registers the QML
singleton, adds the `s_bridgeMap` entry and returns `None` with the error
still pending, instead of aborting registration and returning the error. -/
theorem bridge_instance_completes_despite_introspection_error :
    bridge_instance ⟨true, .List, [.decorator ("add_item") none]⟩ =
      ⟨true,
        some ("Cannot introspect Python method add_item (missing wrapped_func attribute in insert/remove/move/edit/reset decorator)"),
        true, true, []⟩ := by
  decide

end QtBridges
